import Mathlib

/- Verification development for the Study Portal application (src/app.py):
   a shallow embedding of its per-user content tree, session ledger,
   import/export merge, identifier extraction, authentication and
   persistence logic, with theorems about the properties the design
   document states for them.  Python dicts with a fixed key set are
   embedded as structures; Python floats (study durations, JSON numbers)
   are embedded as rationals; Python lists as Lean lists; `None` as
   `Option.none`. -/

/-- A study session event, the dict `{'date': ..., 'duration': ...}` appended
by the Stop-Timer handler in `render_header` (app.py line 454).  `duration`
is a Python float number of seconds, embedded as a rational. -/
structure SessionEvent where
  date : String
  duration : ℚ
deriving DecidableEq

/-- A video record as built in `render_subject_content` (app.py line 657):
`{'id', 'title', 'url', 'progress': 0, 'last_position': 0, 'added_at'}`. -/
structure VideoItem where
  id : String
  title : String
  url : String
  progress : ℚ
  last_position : ℕ
  added_at : String
deriving DecidableEq

/-- A playlist record as built in `render_subject_content` (app.py line 700):
`{'id', 'title', 'url', 'progress': 0, 'last_position': 0, 'index': 1,
'added_at'}`. -/
structure PlaylistItem where
  id : String
  title : String
  url : String
  progress : ℚ
  last_position : ℕ
  index : ℕ
  added_at : String
deriving DecidableEq

/-- A PDF document record as built in `render_subject_content` (app.py line
752): `{'filename', 'path', 'progress': 0, 'current_page': 1,
'total_pages': 0, 'added_at'}`. -/
structure PdfItem where
  filename : String
  path : String
  progress : ℚ
  current_page : ℕ
  total_pages : ℕ
  added_at : String
deriving DecidableEq

/-- A subject as built in `render_sidebar` (app.py line 486):
`{'videos': [], 'playlists': [], 'pdfs': [], 'created_at': ...}`. -/
structure Subject where
  videos : List VideoItem
  playlists : List PlaylistItem
  pdfs : List PdfItem
  created_at : String
deriving DecidableEq

/-- The per-user data dict (`st.session_state.user_data`), whose shape is
fixed by `DataManager.get_default_user_data` (app.py line 175): keys
`subjects` (a dict from subject name to subject, embedded as an
insertion-ordered association list), `study_sessions`, `total_study_time`
and `last_login`. -/
structure UserData where
  subjects : List (String × Subject)
  study_sessions : List SessionEvent
  total_study_time : ℚ
  last_login : String
deriving DecidableEq

/-- `DataManager.get_default_user_data` (app.py line 175): empty subject
map, no sessions, zero total, current timestamp. -/
def get_default_user_data (nowIso : String) : UserData :=
  { subjects := []
    study_sessions := []
    total_study_time := 0
    last_login := nowIso }

/-- Sum of the durations of a list of session events (the quantity the
design document's invariant compares `total_study_time` against). -/
def sessionsSum (events : List SessionEvent) : ℚ :=
  (events.map SessionEvent.duration).sum

/-! ## Session ledger: the Stop-Timer handler (app.py lines 450-461) -/

/-- Result of one press of the Stop-Timer button: the new user data, the
new `study_start_time` session field, the session event appended (if any,
shown to the user via the success toast), and whether `save_user_data`
was called. -/
structure StopTimerResult where
  data : UserData
  study_start_time : Option ℚ
  event : Option SessionEvent
  saved : Bool
deriving DecidableEq

/-- The Stop-Timer handler (app.py lines 450-461).  Timestamps are embedded
as rational numbers of seconds; `now - t0` embeds
`(datetime.datetime.now() - st.session_state.study_start_time).total_seconds()`.
When `study_start_time` is `None` (falsy) the handler body is skipped
entirely: nothing is appended, nothing is saved. -/
def stop_timer (study_start_time : Option ℚ) (now : ℚ) (nowIso : String)
    (d : UserData) : StopTimerResult :=
  match study_start_time with
  | some t0 =>
    let study_time := now - t0
    { data := { d with
        total_study_time := d.total_study_time + study_time
        study_sessions := d.study_sessions ++ [{ date := nowIso, duration := study_time }] }
      study_start_time := none
      event := some { date := nowIso, duration := study_time }
      saved := true }
  | none =>
    { data := d, study_start_time := none, event := none, saved := false }

/-! ## Import/export merger (app.py lines 515-538) -/

/-- A decoded import payload: the value of the `user_data` key of an
uploaded JSON file.  Each recognized top-level key may be present
(`some`) or absent (`none`); this embeds Python dict key presence for
the keys the application reads. -/
structure ImportPayload where
  subjects : Option (List (String × Subject))
  study_sessions : Option (List SessionEvent)
  total_study_time : Option ℚ
  last_login : Option String
deriving DecidableEq

/-- A successfully parsed import file, which may or may not carry the
`user_data` key (app.py line 532 checks `if 'user_data' in import_data`). -/
structure ImportFile where
  user_data : Option ImportPayload
deriving DecidableEq

/-- The export dict built in `render_sidebar` (app.py lines 516-519):
`{'user_data': ..., 'export_date': ...}`. -/
structure ExportData where
  user_data : UserData
  export_date : String
deriving DecidableEq

/-- `st.session_state.user_data.update(import_data['user_data'])`
(app.py line 533): Python `dict.update` replaces exactly the keys present
in the argument and leaves the remaining keys untouched. -/
def updateUserData (live : UserData) (p : ImportPayload) : UserData :=
  { subjects := p.subjects.getD live.subjects
    study_sessions := p.study_sessions.getD live.study_sessions
    total_study_time := p.total_study_time.getD live.total_study_time
    last_login := p.last_login.getD live.last_login }

/-- The import handler (app.py lines 528-538).  The argument `parsed` is
the outcome of `json.load` on the uploaded file: `none` embeds a raised
parse error, which the `except` branch turns into an error message with
the live tree untouched and no save.  A parsed file without a
`user_data` key is also a no-op.  Otherwise the live tree is updated by
key and saved.  The boolean records whether `save_user_data` ran. -/
def importSnapshot (live : UserData) (parsed : Option ImportFile) : UserData × Bool :=
  match parsed with
  | none => (live, false)
  | some f =>
    match f.user_data with
    | none => (live, false)
    | some p => (updateUserData live p, true)

/-- The export handler (app.py lines 515-519): wraps the live tree with an
export timestamp. -/
def exportSnapshot (d : UserData) (nowIso : String) : ExportData :=
  { user_data := d, export_date := nowIso }

/-- Models `json.load` applied to the `json.dumps` output of an export dict
(app.py lines 520 and 531): serializing the export dict and parsing it back
yields the same dict, with the `user_data` key present and carrying every
top-level key of the exported tree. -/
def parseExport (e : ExportData) : ImportFile :=
  { user_data := some
      { subjects := some e.user_data.subjects
        study_sessions := some e.user_data.study_sessions
        total_study_time := some e.user_data.total_study_time
        last_login := some e.user_data.last_login } }

/-! ## Save position (app.py lines 574-583 and 617-629) -/

/-- The total-seconds computation of the Save-Position handlers, identical
in `render_video_player` (app.py lines 575-578) and `render_playlist`
(app.py lines 618-621): a separate branch for `hours != 0`. -/
def save_position_total_seconds (hours minutes seconds : ℕ) : ℕ :=
  if hours ≠ 0 then ((hours * 60) + minutes) * 60 + seconds
  else minutes * 60 + seconds

/-! ## Theorems for claims C2, C3, C5, C6 -/

/-- Claim C2: exporting a tree (wrapping it with an export timestamp) and
then importing the serialized result into a fresh default-initialized
tree reproduces the original tree exactly (and triggers a save), with no
mutation in between: every top-level key of the exported tree is present
in the payload, so `dict.update` replaces all four fields of the default
tree. -/
theorem export_import_roundtrip (t : UserData) (exportIso freshIso : String) :
    importSnapshot (get_default_user_data freshIso)
      (some (parseExport (exportSnapshot t exportIso))) = (t, true) := rfl

/-- Claim C3: the import handler performs a replace-by-key shallow merge:
a parse error (or a parsed file without the `user_data` key) leaves the
live tree completely unmodified and performs no save; for a payload, each
top-level key present in it entirely replaces the corresponding live
value, each absent key leaves the live value untouched, and the merged
tree is saved. -/
theorem importSnapshot_shallow_merge (live : UserData) (p : ImportPayload) :
    importSnapshot live none = (live, false) ∧
    importSnapshot live (some { user_data := none }) = (live, false) ∧
    (∀ v, p.subjects = some v →
      (importSnapshot live (some { user_data := some p })).1.subjects = v) ∧
    (p.subjects = none →
      (importSnapshot live (some { user_data := some p })).1.subjects = live.subjects) ∧
    (∀ v, p.study_sessions = some v →
      (importSnapshot live (some { user_data := some p })).1.study_sessions = v) ∧
    (p.study_sessions = none →
      (importSnapshot live (some { user_data := some p })).1.study_sessions
        = live.study_sessions) ∧
    (∀ v, p.total_study_time = some v →
      (importSnapshot live (some { user_data := some p })).1.total_study_time = v) ∧
    (p.total_study_time = none →
      (importSnapshot live (some { user_data := some p })).1.total_study_time
        = live.total_study_time) ∧
    (∀ v, p.last_login = some v →
      (importSnapshot live (some { user_data := some p })).1.last_login = v) ∧
    (p.last_login = none →
      (importSnapshot live (some { user_data := some p })).1.last_login = live.last_login) ∧
    (importSnapshot live (some { user_data := some p })).2 = true := by
  refine ⟨rfl, rfl, ?_, ?_, ?_, ?_, ?_, ?_, ?_, ?_, rfl⟩ <;>
    intro h <;> simp_all [importSnapshot, updateUserData]

/-- An example live tree used to instantiate theorems with hypotheses. -/
def liveExample : UserData :=
  { subjects := [("Math", { videos := [], playlists := [], pdfs := [], created_at := "t0" })]
    study_sessions := [{ date := "2024-01-01T10:00:00", duration := 125 }]
    total_study_time := 125
    last_login := "2024-01-01T09:00:00" }

/-- An example import payload carrying only the `subjects` key. -/
def payloadExample : ImportPayload :=
  { subjects := some [("Physics", { videos := [], playlists := [], pdfs := [], created_at := "t1" })]
    study_sessions := none
    total_study_time := none
    last_login := none }

/-- Witness for `importSnapshot_shallow_merge`: on a concrete live tree and
a concrete payload carrying only `subjects`, the `subjects` mapping is
replaced wholesale while `study_sessions` is left untouched, and a parse
error leaves the tree unchanged. -/
theorem importSnapshot_shallow_merge_witness :
    (importSnapshot liveExample (some { user_data := some payloadExample })).1.subjects
      = [("Physics", { videos := [], playlists := [], pdfs := [], created_at := "t1" })] ∧
    (importSnapshot liveExample (some { user_data := some payloadExample })).1.study_sessions
      = liveExample.study_sessions ∧
    importSnapshot liveExample none = (liveExample, false) :=
  ⟨(importSnapshot_shallow_merge liveExample payloadExample).2.2.1 _ rfl,
   (importSnapshot_shallow_merge liveExample payloadExample).2.2.2.2.2.1 rfl,
   (importSnapshot_shallow_merge liveExample payloadExample).1⟩

/-- Claim C5: with a timer running since `t0`, pressing Stop computes
`duration = now - t0` (real-valued seconds), appends a session event with
that duration, increments `total_study_time` by it, clears the timer and
saves; with no timer running the handler is a no-op on the tree, appends
nothing, and signals no completed session. -/
theorem stop_timer_contract (t0 now : ℚ) (nowIso : String) (d : UserData) :
    stop_timer (some t0) now nowIso d =
      { data := { d with
          total_study_time := d.total_study_time + (now - t0)
          study_sessions := d.study_sessions ++ [{ date := nowIso, duration := now - t0 }] }
        study_start_time := none
        event := some { date := nowIso, duration := now - t0 }
        saved := true } ∧
    stop_timer none now nowIso d =
      { data := d, study_start_time := none, event := none, saved := false } :=
  ⟨rfl, rfl⟩

/-- Claim C6: the two branches of the Save-Position total-seconds formula
agree: for every non-negative `h`, `m`, `s` the handler's value equals the
single general formula `((h*60)+m)*60+s`, so the zero-hours special case
is redundant. -/
theorem save_position_branches_agree (h m s : ℕ) :
    save_position_total_seconds h m s = ((h * 60) + m) * 60 + s := by
  unfold save_position_total_seconds
  by_cases hh : h = 0
  · simp [hh]
  · simp [hh]

/-! ## Identity store: authentication and registration (app.py lines 409-432) -/

/-- A record of the users dict (`users.json`): `{'password': ...,
'created_at': ...}` as written by `register_user` (app.py line 423). -/
structure UserRecord where
  password : String
  created_at : String
deriving DecidableEq

/-- The observable outcome of `login_user` (app.py lines 409-417): the
returned boolean, and the username stored into the session on success
(`none` on failure, where the session is left untouched and the page
shows the same message for every failed attempt). -/
structure LoginResult where
  ok : Bool
  session_username : Option String
deriving DecidableEq

/-- `login_user` (app.py lines 409-417): `username in users and
users[username]['password'] == password`.  The users dict is embedded as
an insertion-ordered association list. -/
def login_user (users : List (String × UserRecord)) (username password : String) :
    LoginResult :=
  match users.lookup username with
  | some r =>
    if r.password = password then { ok := true, session_username := some username }
    else { ok := false, session_username := none }
  | none => { ok := false, session_username := none }

/-- The outcome of `register_user` (app.py lines 419-432): the new users
dict, the user data persisted for the new account (if any), and the
returned boolean. -/
structure RegisterResult where
  users : List (String × UserRecord)
  saved_data : Option UserData
  ok : Bool
deriving DecidableEq

/-- `register_user` (app.py lines 419-432): if the name is taken, fail;
otherwise add the record and durably save a default tree for the account. -/
def register_user (users : List (String × UserRecord))
    (username password nowIso : String) : RegisterResult :=
  match users.lookup username with
  | some _ => { users := users, saved_data := none, ok := false }
  | none =>
    { users := users ++ [(username, { password := password, created_at := nowIso })]
      saved_data := some (get_default_user_data nowIso)
      ok := true }

/-! ## Content tree store persistence (app.py lines 156-173) -/

/-- The on-disk state of one account's `user_data.json`: absent, complete
(holding a serialized tree), or truncated/partially written (not valid
JSON — the state left by a crash after `open(data_file, 'w')` has
truncated the file but before `json.dump` has finished writing). -/
inductive SnapshotFile where
  | absent : SnapshotFile
  | truncated : SnapshotFile
  | complete : UserData → SnapshotFile
deriving DecidableEq

/-- `DataManager.save_user_data` (app.py lines 156-161) when it runs to
completion: the snapshot file holds the new tree. -/
def save_user_data (d : UserData) : SnapshotFile :=
  SnapshotFile.complete d

/-- `DataManager.save_user_data` (app.py lines 156-161) interrupted by a
process crash.  The write is `open(data_file, 'w')` followed by
`json.dump(data, f)` on the account's single snapshot path — an in-place
overwrite, with no temporary file and no rename.  Primitive steps
completed before the crash: `0` = crash before the open (old file
intact); `1` = crash after the open has truncated the file but before
the dump has been flushed in full (truncated, unparseable file); `2` or
more = write completed. -/
def save_user_data_crashed (old : SnapshotFile) (d : UserData) (steps : ℕ) :
    SnapshotFile :=
  if steps = 0 then old
  else if steps = 1 then SnapshotFile.truncated
  else SnapshotFile.complete d

/-- `DataManager.load_user_data` (app.py lines 163-173): a missing file or
any exception while reading/parsing (the bare `except`) yields the
default tree; corruption is swallowed, never surfaced. -/
def load_user_data (f : SnapshotFile) (nowIso : String) : UserData :=
  match f with
  | SnapshotFile.complete d => d
  | SnapshotFile.truncated => get_default_user_data nowIso
  | SnapshotFile.absent => get_default_user_data nowIso

/-! ## Analytics: per-subject progress (app.py lines 880-896) -/

/-- `total_content` in `render_analytics_dashboard` (app.py line 882). -/
def subject_total_content (s : Subject) : ℕ :=
  s.videos.length + s.playlists.length + s.pdfs.length

/-- `completed_content` in `render_analytics_dashboard` (app.py lines
883-887): items whose `progress` equals `100` exactly. -/
def subject_completed_content (s : Subject) : ℕ :=
  s.videos.countP (fun v => decide (v.progress = 100)) +
  s.playlists.countP (fun p => decide (p.progress = 100)) +
  s.pdfs.countP (fun p => decide (p.progress = 100))

/-- `progress` in `render_analytics_dashboard` (app.py line 889):
`completed / total * 100` when the subject has items, else `0`. -/
def subject_progress (s : Subject) : ℚ :=
  if subject_total_content s > 0 then
    (subject_completed_content s : ℚ) / (subject_total_content s : ℚ) * 100
  else 0

/-! ## Theorems for claims C7, C8, C4 -/

/-- Claim C7: per-subject progress counts as completed exactly the items
across videos, playlists and documents whose progress equals 100 exactly;
the percentage equals `completed/total*100` when the subject has items
and exactly `0` otherwise, and always lies in `[0, 100]`. -/
theorem subject_progress_bounds (s : Subject) :
    0 ≤ subject_progress s ∧
    subject_progress s ≤ 100 ∧
    (subject_total_content s = 0 → subject_progress s = 0) ∧
    (0 < subject_total_content s →
      subject_progress s
        = (subject_completed_content s : ℚ) / (subject_total_content s : ℚ) * 100) ∧
    subject_completed_content s
      = ((s.videos.map VideoItem.progress ++ s.playlists.map PlaylistItem.progress ++
          s.pdfs.map PdfItem.progress).countP fun q => decide (q = 100)) := by
  have h1 : s.videos.countP (fun v => decide (v.progress = 100)) ≤ s.videos.length :=
    List.countP_le_length _
  have h2 : s.playlists.countP (fun p => decide (p.progress = 100)) ≤ s.playlists.length :=
    List.countP_le_length _
  have h3 : s.pdfs.countP (fun p => decide (p.progress = 100)) ≤ s.pdfs.length :=
    List.countP_le_length _
  have hle : subject_completed_content s ≤ subject_total_content s := by
    unfold subject_completed_content subject_total_content
    omega
  refine ⟨?_, ?_, ?_, ?_, ?_⟩
  · unfold subject_progress
    split_ifs with h
    · positivity
    · exact le_refl 0
  · unfold subject_progress
    split_ifs with h
    · have htpos : (0 : ℚ) < (subject_total_content s : ℚ) := by exact_mod_cast h
      have hdle : (subject_completed_content s : ℚ) / (subject_total_content s : ℚ) ≤ 1 :=
        div_le_one_of_le₀ (by exact_mod_cast hle) (le_of_lt htpos)
      calc (subject_completed_content s : ℚ) / (subject_total_content s : ℚ) * 100
          ≤ 1 * 100 := mul_le_mul_of_nonneg_right hdle (by norm_num)
        _ = 100 := one_mul 100
    · norm_num
  · intro h0
    simp [subject_progress, h0]
  · intro hpos
    simp [subject_progress, hpos]
  · unfold subject_completed_content
    simp only [List.countP_append, List.countP_map, Function.comp_def]

/-- An empty subject, as created by `render_sidebar` (app.py line 486). -/
def emptySubject : Subject :=
  { videos := [], playlists := [], pdfs := [], created_at := "2024-01-01T00:00:00" }

/-- A subject with one completed video (progress 100) and one half-watched
video (progress 50). -/
def halfDoneSubject : Subject :=
  { videos :=
      [{ id := "abc", title := "Video 1", url := "u1", progress := 100,
         last_position := 0, added_at := "t" },
       { id := "def", title := "Video 2", url := "u2", progress := 50,
         last_position := 30, added_at := "t" }]
    playlists := [], pdfs := [], created_at := "t" }

/-- Witness for `subject_progress_bounds`: an empty subject has progress
exactly 0, and a subject with one of two items completed has progress
`1/2 * 100`, within bounds. -/
theorem subject_progress_bounds_witness :
    subject_progress emptySubject = 0 ∧
    subject_progress halfDoneSubject = (1 : ℚ) / 2 * 100 ∧
    subject_progress halfDoneSubject ≤ 100 :=
  ⟨(subject_progress_bounds emptySubject).2.2.1 rfl,
   by
    have h := (subject_progress_bounds halfDoneSubject).2.2.2.1 (by decide)
    rw [h, show subject_completed_content halfDoneSubject = 1 from rfl,
        show subject_total_content halfDoneSubject = 2 from rfl]
    norm_num,
   (subject_progress_bounds halfDoneSubject).2.1⟩

/-- Claim C8 counterexample: the claim asserts that some pair of failing
runs — one with an unknown username, one with a known username but wrong
password — produce different observable results.  In fact no such pair
exists: `login_user` returns the identical generic failure (`False`, no
session) in both cases (and `render_login_page` shows the same
"Invalid username or password" message whenever it returns `False`). -/
theorem login_mismatch_indistinguishable :
    ¬ ∃ (users : List (String × UserRecord)) (u1 p1 u2 p2 : String),
        users.lookup u1 = none ∧
        (∃ r, users.lookup u2 = some r ∧ r.password ≠ p2) ∧
        login_user users u1 p1 ≠ login_user users u2 p2 := by
  rintro ⟨users, u1, p1, u2, p2, h1, ⟨r, h2, h3⟩, hne⟩
  apply hne
  simp [login_user, h1, h2, h3]

/-- Claim C8 (amended): `login_user` returns the same generic failure for
every mismatch — an unknown username and a known username with a wrong
password both yield `ok = false` with no session set, so the two runs are
observationally equal. -/
theorem login_uniform_failure (users : List (String × UserRecord))
    (u1 p1 u2 p2 : String) (r : UserRecord)
    (h1 : users.lookup u1 = none) (h2 : users.lookup u2 = some r)
    (h3 : r.password ≠ p2) :
    login_user users u1 p1 = { ok := false, session_username := none } ∧
    login_user users u2 p2 = { ok := false, session_username := none } ∧
    login_user users u1 p1 = login_user users u2 p2 := by
  have e1 : login_user users u1 p1 = { ok := false, session_username := none } := by
    simp [login_user, h1]
  have e2 : login_user users u2 p2 = { ok := false, session_username := none } := by
    simp [login_user, h2, h3]
  exact ⟨e1, e2, by rw [e1, e2]⟩

/-- Witness for `login_uniform_failure`: with the store holding only
`alice`/`pw1`, logging in as unknown `bob` and as `alice` with a wrong
password produce the same observable failure. -/
theorem login_uniform_failure_witness :
    login_user [("alice", { password := "pw1", created_at := "t0" })] "bob" "pw1"
      = login_user [("alice", { password := "pw1", created_at := "t0" })] "alice" "wrong" :=
  (login_uniform_failure [("alice", { password := "pw1", created_at := "t0" })]
    "bob" "pw1" "alice" "wrong" { password := "pw1", created_at := "t0" }
    (by decide) (by decide) (by decide)).2.2

/-- The snapshot on disk before the interrupted save of claim C4. -/
def oldSnapshot : UserData :=
  { subjects := []
    study_sessions := [{ date := "2024-01-01T10:00:00", duration := 125 }]
    total_study_time := 125
    last_login := "2024-01-01T09:00:00" }

/-- The tree being saved when the crash of claim C4 hits. -/
def newSnapshot : UserData :=
  { subjects := []
    study_sessions := [{ date := "2024-01-01T10:00:00", duration := 125 },
                       { date := "2024-01-02T10:00:00", duration := 60 }]
    total_study_time := 185
    last_login := "2024-01-02T09:00:00" }

/-- Claim C4 is violated by the code: `save_user_data` overwrites the
snapshot in place (no write-to-temp-then-rename), so a crash after the
`open(..., 'w')` truncation leaves a partially written file that is
neither the old nor the new snapshot, and a subsequent load silently
replaces it with the default empty tree. -/
theorem save_crash_loses_snapshot :
    save_user_data_crashed (SnapshotFile.complete oldSnapshot) newSnapshot 1
      = SnapshotFile.truncated ∧
    load_user_data SnapshotFile.truncated "2024-01-02T11:00:00"
      = get_default_user_data "2024-01-02T11:00:00" ∧
    load_user_data SnapshotFile.truncated "2024-01-02T11:00:00" ≠ oldSnapshot ∧
    load_user_data SnapshotFile.truncated "2024-01-02T11:00:00" ≠ newSnapshot ∧
    save_user_data newSnapshot = SnapshotFile.complete newSnapshot :=
  ⟨rfl, rfl, by decide, by decide, rfl⟩

/-! ## Theorems for claim C1: the total-study-time invariant -/

/-- The design document's content-tree invariant: `total_study_time`
equals the sum of all recorded session durations. -/
def totalInvariant (d : UserData) : Prop :=
  d.total_study_time = sessionsSum d.study_sessions

instance totalInvariant.dec (d : UserData) : Decidable (totalInvariant d) :=
  inferInstanceAs (Decidable (d.total_study_time = sessionsSum d.study_sessions))

/-- One operation of a session history, as enumerated by claim C1: a press
of the Stop-Timer button (with the transient timer state and the clock at
that moment), or an import (with the outcome of parsing the uploaded
file).  Registration is the creation of the default tree the sequence
starts from. -/
inductive TreeOp where
  | stopOp : Option ℚ → ℚ → String → TreeOp
  | importOp : Option ImportFile → TreeOp
deriving DecidableEq

/-- The effect of one operation on the stored tree. -/
def applyOp (d : UserData) : TreeOp → UserData
  | TreeOp.stopOp start now nowIso => (stop_timer start now nowIso d).data
  | TreeOp.importOp parsed => (importSnapshot d parsed).1

/-- Replay a sequence of operations from a starting tree. -/
def replay (d : UserData) (ops : List TreeOp) : UserData :=
  ops.foldl applyOp d

/-- A payload preserves the session-total invariant when it carries the
`study_sessions` and `total_study_time` keys together and consistently,
or carries neither. -/
def consistentPayload (p : ImportPayload) : Bool :=
  match p.study_sessions, p.total_study_time with
  | none, none => true
  | some ss, some t => decide (t = sessionsSum ss)
  | _, _ => false

/-- An operation is consistent when it is anything but an import whose
parsed payload breaks the pairing above. -/
def consistentOp : TreeOp → Bool
  | TreeOp.importOp (some f) =>
    match f.user_data with
    | some p => consistentPayload p
    | none => true
  | _ => true

/-- An import file whose payload carries `total_study_time` without
`study_sessions`. -/
def badImportFile : ImportFile :=
  { user_data := some
      { subjects := none, study_sessions := none,
        total_study_time := some 5, last_login := none } }

/-- Claim C1 counterexample: the invariant does not survive every import
merge.  Importing a parseable payload that carries `total_study_time: 5`
but no `study_sessions` key into the freshly registered default tree sets
the stored total to 5 while the session log stays empty (sum 0). -/
theorem total_invariant_broken_by_import :
    ¬ totalInvariant
        (replay (get_default_user_data "2024-01-01T00:00:00")
          [TreeOp.importOp (some badImportFile)]) := by decide

/-- Each consistent operation preserves the invariant. -/
theorem applyOp_preserves_totalInvariant (d : UserData) (op : TreeOp)
    (hd : totalInvariant d) (hop : consistentOp op = true) :
    totalInvariant (applyOp d op) := by
  cases op with
  | stopOp start now nowIso =>
    cases start with
    | none => exact hd
    | some t0 =>
      unfold totalInvariant at hd ⊢
      simp [applyOp, stop_timer, sessionsSum, hd]
  | importOp parsed =>
    cases parsed with
    | none => exact hd
    | some f =>
      cases hf : f.user_data with
      | none => simpa [applyOp, importSnapshot, hf] using hd
      | some p =>
        have hp : consistentPayload p = true := by
          simpa [consistentOp, hf] using hop
        unfold totalInvariant at hd ⊢
        cases hss : p.study_sessions with
        | none =>
          cases ht : p.total_study_time with
          | none =>
            simp [applyOp, importSnapshot, updateUserData, hf, hss, ht, hd]
          | some t =>
            rw [consistentPayload, hss, ht] at hp
            cases hp
        | some ss =>
          cases ht : p.total_study_time with
          | none =>
            rw [consistentPayload, hss, ht] at hp
            cases hp
          | some t =>
            rw [consistentPayload, hss, ht] at hp
            have : t = sessionsSum ss := of_decide_eq_true hp
            simp [applyOp, importSnapshot, updateUserData, hf, hss, ht, this]

/-- Replaying consistent operations preserves the invariant. -/
theorem replay_preserves_totalInvariant (ops : List TreeOp) :
    ∀ d : UserData, totalInvariant d → (∀ op ∈ ops, consistentOp op = true) →
      totalInvariant (replay d ops) := by
  induction ops with
  | nil => intro d hd _; exact hd
  | cons op ops ih =>
    intro d hd hops
    have h1 : consistentOp op = true := hops op (List.mem_cons_self op ops)
    have h2 : ∀ o ∈ ops, consistentOp o = true :=
      fun o ho => hops o (List.mem_cons_of_mem op ho)
    exact ih (applyOp d op) (applyOp_preserves_totalInvariant d op hd h1) h2

/-- Claim C1 (amended): starting from the default tree created at
registration, after any sequence of Stop-Timer presses and imports the
stored `total_study_time` equals the sum of all recorded session
durations — provided every import payload carries `study_sessions` and
`total_study_time` together and consistently, or carries neither key.
(Registration itself persists exactly the default tree, whose total `0`
is the sum of its empty session log.) -/
theorem total_invariant_after_replay (nowIso : String) (ops : List TreeOp)
    (hops : ∀ op ∈ ops, consistentOp op = true) :
    totalInvariant (replay (get_default_user_data nowIso) ops) ∧
    ∀ (users : List (String × UserRecord)) (u pw : String),
      users.lookup u = none →
      (register_user users u pw nowIso).saved_data = some (get_default_user_data nowIso) := by
  constructor
  · exact replay_preserves_totalInvariant ops (get_default_user_data nowIso)
      (by simp [totalInvariant, get_default_user_data, sessionsSum]) hops
  · intro users u pw hu
    simp [register_user, hu]

/-- An import file whose payload replaces the session log and the total
together and consistently. -/
def goodImportFile : ImportFile :=
  { user_data := some
      { subjects := none
        study_sessions := some [{ date := "2024-02-01T10:00:00", duration := 30 }]
        total_study_time := some 30
        last_login := none } }

/-- A concrete consistent history: a completed 125-second session, a
Stop press with no timer running, a failed parse, and a consistent import. -/
def opsExample : List TreeOp :=
  [TreeOp.stopOp (some 1000) 1125 "2024-01-01T10:00:00",
   TreeOp.stopOp none 1200 "2024-01-01T10:05:00",
   TreeOp.importOp none,
   TreeOp.importOp (some goodImportFile)]

/-- Witness for `total_invariant_after_replay`: the invariant holds after
the concrete consistent history above, and registering `alice` in an
empty store persists the default tree. -/
theorem total_invariant_after_replay_witness :
    totalInvariant (replay (get_default_user_data "2024-01-01T00:00:00") opsExample) ∧
    (register_user [] "alice" "pw1" "2024-01-01T00:00:00").saved_data
      = some (get_default_user_data "2024-01-01T00:00:00") := by
  have h := total_invariant_after_replay "2024-01-01T00:00:00" opsExample
    (by simp [opsExample, consistentOp, consistentPayload, goodImportFile, sessionsSum])
  exact ⟨h.1, h.2 [] "alice" "pw1" rfl⟩

/-! ## URL identifier extraction (app.py lines 207-224) -/

/-- The character class `[^&\n?#]` of the capture groups in
`extract_youtube_id` and `extract_playlist_id` (app.py lines 210-222). -/
def capChar (c : Char) : Bool :=
  !(c == '&' || c == '\n' || c == '?' || c == '#')

/-- Match a literal piece of a pattern at the current position: strip it
as a prefix of the remaining input. -/
def stripLit : List Char → List Char → Option (List Char)
  | [], l => some l
  | _ :: _, [] => none
  | p :: ps, c :: cs => if c = p then stripLit ps cs else none

/-- A literal followed by the capture group `([^&\n?#]+)` (at least one
character), attempted at the current position; the shape of every
alternative of the patterns in app.py lines 210-211 and 222. -/
def tryAlt (p l : List Char) : Option (List Char) :=
  match stripLit p l with
  | some rest =>
    match rest.takeWhile capChar with
    | [] => none
    | d :: ds => some (d :: ds)
  | none => none

/-- The literal of the first alternative of pattern 1 (app.py line 210). -/
def watchVLit : List Char := "youtube.com/watch?v=".toList

/-- The literal of the second alternative of pattern 1. -/
def shortLit : List Char := "youtu.be/".toList

/-- The literal of the third alternative of pattern 1. -/
def embedLit : List Char := "youtube.com/embed/".toList

/-- Pattern 1 of `extract_youtube_id` attempted at one position: the three
alternatives are tried in order.  (Their literals are pairwise
incompatible, so at most one can match at a given position.) -/
def pat1At (l : List Char) : Option (List Char) :=
  match tryAlt watchVLit l with
  | some cap => some cap
  | none =>
    match tryAlt shortLit l with
    | some cap => some cap
    | none => tryAlt embedLit l

/-- `re.search` with pattern 1: try each start position left to right. -/
def searchPat1 : List Char → Option (List Char)
  | [] => none
  | c :: cs =>
    match pat1At (c :: cs) with
    | some cap => some cap
    | none => searchPat1 cs

/-- The literal prefix of pattern 2 (app.py line 211). -/
def watchQLit : List Char := "youtube.com/watch?".toList

/-- The suffix `v=([^&\n?#]+)` of pattern 2, attempted at offset `j` into
the remainder after the literal prefix. -/
def vCapAt (rest : List Char) (j : ℕ) : Option (List Char) :=
  tryAlt ('v' :: '=' :: []) (rest.drop j)

/-- The greedy `.*` of pattern 2: the gap before `v=` cannot contain a
newline, and backtracking tries the longest gap first, so offsets are
tried from `j` down to `0`. -/
def lastVCap (rest : List Char) : ℕ → Option (List Char)
  | 0 => vCapAt rest 0
  | j + 1 =>
    match vCapAt rest (j + 1) with
    | some cap => some cap
    | none => lastVCap rest j

/-- Pattern 2 of `extract_youtube_id` attempted at one position: the
literal prefix, then `v=` + capture at the furthest offset reachable
without crossing a newline. -/
def pat2At (l : List Char) : Option (List Char) :=
  match stripLit watchQLit l with
  | some rest => lastVCap rest (rest.takeWhile (fun c => !(c == '\n'))).length
  | none => none

/-- `re.search` with pattern 2. -/
def searchPat2 : List Char → Option (List Char)
  | [] => none
  | c :: cs =>
    match pat2At (c :: cs) with
    | some cap => some cap
    | none => searchPat2 cs

/-- `extract_youtube_id` (app.py lines 207-218): the two patterns are
tried in order over the whole URL; `None` when neither matches anywhere. -/
def extract_youtube_id (url : String) : Option String :=
  match searchPat1 url.toList with
  | some cap => some (String.mk cap)
  | none =>
    match searchPat2 url.toList with
    | some cap => some (String.mk cap)
    | none => none

/-- The Add-Video handler (app.py lines 653-670) acting on the selected
subject: on a recognized URL, append a video record (default title
`"Video {n+1}"` when the given title is empty, hence falsy) and save; on
an unrecognized URL show an error and change nothing.  The boolean
records whether a video was appended (and the tree saved). -/
def add_video (s : Subject) (url title nowIso : String) : Subject × Bool :=
  match extract_youtube_id url with
  | some vid =>
    ({ s with videos := s.videos ++
        [{ id := vid
           title := if title = "" then "Video " ++ toString (s.videos.length + 1) else title
           url := url
           progress := 0
           last_position := 0
           added_at := nowIso }] }, true)
  | none => (s, false)

/-- The pattern literal `list=` of `extract_playlist_id` (app.py line 222). -/
def listEqLit : List Char := "list=".toList

/-- `re.search` with the pattern `list=([^&\n?#]+)`: at each position, the
literal plus a non-empty capture; on failure (including a match of the
literal followed by no capturable character) the scan resumes at the
next position. -/
def searchListCap : List Char → Option (List Char)
  | [] => none
  | c :: cs =>
    match tryAlt listEqLit (c :: cs) with
    | some cap => some cap
    | none => searchListCap cs

/-- `extract_playlist_id` (app.py lines 220-224). -/
def extract_playlist_id (url : String) : Option String :=
  match searchListCap url.toList with
  | some cap => some (String.mk cap)
  | none => none

/-- The Add-Playlist handler (app.py lines 696-714), analogous to
`add_video`. -/
def add_playlist (s : Subject) (url title nowIso : String) : Subject × Bool :=
  match extract_playlist_id url with
  | some pid =>
    ({ s with playlists := s.playlists ++
        [{ id := pid
           title := if title = "" then "Playlist " ++ toString (s.playlists.length + 1) else title
           url := url
           progress := 0
           last_position := 0
           index := 1
           added_at := nowIso }] }, true)
  | none => (s, false)

/-! ## Helper lemmas about the extraction scan -/

theorem stripLit_eq_some (p : List Char) :
    ∀ (l rest : List Char), stripLit p l = some rest ↔ l = p ++ rest := by
  induction p with
  | nil => intro l rest; simp [stripLit]
  | cons x ps ih =>
    intro l rest
    cases l with
    | nil => simp [stripLit]
    | cons c cs =>
      by_cases hc : c = x
      · simp [stripLit, hc, ih cs rest]
      · simp [stripLit, hc]

theorem tryAlt_eq_some (p l cap : List Char) :
    tryAlt p l = some cap ↔
      ∃ rest, l = p ++ rest ∧ rest.takeWhile capChar = cap ∧ cap ≠ [] := by
  constructor
  · intro h
    unfold tryAlt at h
    split at h
    next rest hs =>
      split at h
      next htw => cases h
      next d ds htw =>
        refine ⟨rest, (stripLit_eq_some p l rest).1 hs, ?_, ?_⟩
        · rw [htw]; exact Option.some.inj h
        · intro hc; rw [← Option.some.inj h] at hc; cases hc
    next hs => cases h
  · rintro ⟨rest, hl, htw, hne⟩
    unfold tryAlt
    rw [(stripLit_eq_some p l rest).2 hl]
    dsimp only
    rw [htw]
    cases cap with
    | nil => cases hne rfl
    | cons d ds => rfl

theorem dropWhile_head_not (p : Char → Bool) :
    ∀ (l : List Char) (c : Char), (l.dropWhile p).head? = some c → p c = false := by
  intro l
  induction l with
  | nil => intro c h; simp [List.dropWhile] at h
  | cons x xs ih =>
    intro c h
    by_cases hx : p x = true
    · rw [List.dropWhile_cons_of_pos hx] at h
      exact ih c h
    · rw [List.dropWhile_cons_of_neg hx] at h
      have hxc : x = c := by simpa using h
      rw [← hxc]
      exact Bool.not_eq_true _ |>.mp hx

theorem searchListCap_cons (c : Char) (cs : List Char) :
    searchListCap (c :: cs) =
      match tryAlt listEqLit (c :: cs) with
      | some cap => some cap
      | none => searchListCap cs := rfl

theorem searchListCap_eq_of_tryAlt_some (l cap : List Char) (hne : l ≠ [])
    (h : tryAlt listEqLit l = some cap) : searchListCap l = some cap := by
  cases l with
  | nil => cases hne rfl
  | cons x xs => rw [searchListCap_cons, h]

theorem searchListCap_eq_of_tryAlt_none (x : Char) (xs : List Char)
    (h : tryAlt listEqLit (x :: xs) = none) :
    searchListCap (x :: xs) = searchListCap xs := by
  rw [searchListCap_cons, h]

theorem searchListCap_isSome_of_occurrence (c : Char) (r : List Char) (hc : capChar c = true) :
    ∀ pre : List Char, (searchListCap (pre ++ listEqLit ++ (c :: r))).isSome = true := by
  intro pre
  induction pre with
  | nil =>
    have hcap : tryAlt listEqLit (listEqLit ++ (c :: r)) = some (c :: r.takeWhile capChar) := by
      rw [tryAlt_eq_some]
      refine ⟨c :: r, rfl, ?_, by simp⟩
      rw [List.takeWhile_cons_of_pos hc]
    have hne : listEqLit ++ (c :: r) ≠ [] := by simp
    rw [List.nil_append, searchListCap_eq_of_tryAlt_some (listEqLit ++ (c :: r)) _ hne hcap]
    rfl
  | cons x pre ih =>
    have hshape : (x :: pre) ++ listEqLit ++ (c :: r) = x :: (pre ++ listEqLit ++ (c :: r)) := by
      simp
    rw [hshape]
    cases hx : tryAlt listEqLit (x :: (pre ++ listEqLit ++ (c :: r))) with
    | some cap =>
      rw [searchListCap_eq_of_tryAlt_some _ cap (List.cons_ne_nil _ _) hx]
      rfl
    | none =>
      rw [searchListCap_eq_of_tryAlt_none x _ hx]
      exact ih

theorem searchListCap_some_spec :
    ∀ (l cap : List Char), searchListCap l = some cap →
      cap ≠ [] ∧ (∀ c ∈ cap, capChar c = true) ∧
      ∃ pre r, l = pre ++ listEqLit ++ cap ++ r ∧
        (∀ c, r.head? = some c → capChar c = false) ∧
        (∀ pre₂ c₂ r₂, l = pre₂ ++ listEqLit ++ (c₂ :: r₂) → capChar c₂ = true →
          pre.length ≤ pre₂.length) := by
  intro l
  induction l with
  | nil => intro cap h; cases h
  | cons x xs ih =>
    intro cap h
    cases hx : tryAlt listEqLit (x :: xs) with
    | some cap' =>
      rw [searchListCap_eq_of_tryAlt_some _ cap' (List.cons_ne_nil _ _) hx] at h
      have hcc : cap' = cap := Option.some.inj h
      subst hcc
      obtain ⟨rest, hl, htw, hne⟩ := (tryAlt_eq_some _ _ _).1 hx
      refine ⟨hne, ?_, [], rest.dropWhile capChar, ?_, ?_, ?_⟩
      · intro c hcmem
        rw [← htw] at hcmem
        exact List.mem_takeWhile_imp hcmem
      · rw [hl, ← htw]
        simp [List.append_assoc, List.takeWhile_append_dropWhile]
      · intro c hc
        exact dropWhile_head_not capChar rest c hc
      · intro pre₂ c₂ r₂ _ _
        exact Nat.zero_le _
    | none =>
      rw [searchListCap_eq_of_tryAlt_none x xs hx] at h
      obtain ⟨hne, hmem, pre, r, hl, hr, hmin⟩ := ih cap h
      refine ⟨hne, hmem, x :: pre, r, ?_, hr, ?_⟩
      · simp [hl, List.cons_append]
      · intro pre₂ c₂ r₂ heq hc₂
        cases pre₂ with
        | nil =>
          exfalso
          have hta : tryAlt listEqLit (x :: xs) = some (c₂ :: r₂.takeWhile capChar) := by
            rw [tryAlt_eq_some]
            refine ⟨c₂ :: r₂, by simpa using heq, ?_, by simp⟩
            rw [List.takeWhile_cons_of_pos hc₂]
          rw [hta] at hx
          cases hx
        | cons y pre₂' =>
          have hxy : xs = pre₂' ++ listEqLit ++ (c₂ :: r₂) := by
            have hys := heq
            simp [List.cons_append] at hys
            rw [hys.2]
            exact (List.append_assoc pre₂' listEqLit (c₂ :: r₂)).symm
          have hlen := hmin pre₂' c₂ r₂ hxy hc₂
          simpa [List.length_cons] using Nat.succ_le_succ hlen

/-! ## Theorems for claims C9 and C10 -/

/-- Claim C9: when no recognized URL shape (watch-style, short-link style,
embed style — pattern 1 — or the watch-plus-`v=` fallback — pattern 2)
extracts a video identifier, the Add-Video handler leaves the subject
(and hence the tree) completely unchanged and reports failure: rejection
is a no-op, never a partial insert. -/
theorem add_video_invalid_url_noop (s : Subject) (url title nowIso : String)
    (h : extract_youtube_id url = none) :
    add_video s url title nowIso = (s, false) := by
  unfold add_video
  rw [h]

/-- Witness for `add_video_invalid_url_noop`: a concrete unrecognized URL
leaves a concrete subject untouched. -/
theorem add_video_invalid_url_noop_witness :
    add_video emptySubject "https://example.com/abc" "My Title" "2024-01-01T00:00:00"
      = (emptySubject, false) :=
  add_video_invalid_url_noop emptySubject "https://example.com/abc" "My Title"
    "2024-01-01T00:00:00" (by decide)

/-- Claim C10 counterexample: the string `"list=&x"` contains the
substring `list=` (witnessed by an explicit decomposition), yet
`extract_playlist_id` returns `None` — the capture group needs at least
one character outside `&`, newline, `?`, `#` right after `list=` — and
the Add-Playlist handler therefore fails on it, refuting both
"`addPlaylist` succeeds on every string containing `list=`" and "fails
only when `list=` does not occur". -/
theorem playlist_extract_gap :
    ("list=&x".toList = [] ++ listEqLit ++ ['&', 'x']) ∧
    extract_playlist_id "list=&x" = none ∧
    add_playlist emptySubject "list=&x" "" "2024-01-01T00:00:00"
      = (emptySubject, false) :=
  ⟨by decide, by decide, by decide⟩

/-- Claim C10 (amended): playlist extraction accepts any string in which
`list=` is followed by at least one character outside `&`, newline, `?`,
`#`; the identifier is then the maximal such run after the first such
occurrence of `list=` (so an input containing `playlist=xyz` yields
`xyz`); extraction fails whenever `list=` does not occur at all (and, by
the counterexample, also when every occurrence is followed immediately
by a terminator or the end of the string); and the Add-Playlist handler
succeeds exactly when extraction does. -/
theorem playlist_extract_characterization :
    (∀ (url : String) (pre r : List Char) (c : Char),
        url.toList = pre ++ listEqLit ++ (c :: r) → capChar c = true →
        (extract_playlist_id url).isSome = true) ∧
    (∀ (url pid : String), extract_playlist_id url = some pid →
        pid.toList ≠ [] ∧ (∀ c ∈ pid.toList, capChar c = true) ∧
        ∃ pre r, url.toList = pre ++ listEqLit ++ pid.toList ++ r ∧
          (∀ c, r.head? = some c → capChar c = false) ∧
          (∀ pre₂ c₂ r₂, url.toList = pre₂ ++ listEqLit ++ (c₂ :: r₂) →
            capChar c₂ = true → pre.length ≤ pre₂.length)) ∧
    (∀ url : String, (∀ pre r, url.toList ≠ pre ++ listEqLit ++ r) →
        extract_playlist_id url = none) ∧
    (∀ (s : Subject) (url title nowIso : String),
        (add_playlist s url title nowIso).2 = (extract_playlist_id url).isSome) := by
  refine ⟨?_, ?_, ?_, ?_⟩
  · intro url pre r c hdec hc
    unfold extract_playlist_id
    have hsome := searchListCap_isSome_of_occurrence c r hc pre
    rw [← hdec] at hsome
    cases hsc : searchListCap url.toList with
    | none => rw [hsc] at hsome; cases hsome
    | some cap => rfl
  · intro url pid h
    unfold extract_playlist_id at h
    cases hsc : searchListCap url.toList with
    | none => rw [hsc] at h; cases h
    | some cap =>
      rw [hsc] at h
      have hpid : pid = String.mk cap := (Option.some.inj h).symm
      have hlist : pid.toList = cap := by rw [hpid]; rfl
      obtain ⟨hne, hmem, pre, r, hl, hr, hmin⟩ := searchListCap_some_spec url.toList cap hsc
      rw [hlist]
      exact ⟨hne, hmem, pre, r, hl, hr, hmin⟩
  · intro url hnone
    cases he : extract_playlist_id url with
    | none => rfl
    | some pid =>
      exfalso
      unfold extract_playlist_id at he
      cases hsc : searchListCap url.toList with
      | none => rw [hsc] at he; cases he
      | some cap =>
        obtain ⟨_, _, pre, r, hl, _, _⟩ := searchListCap_some_spec url.toList cap hsc
        exact hnone pre (cap ++ r) (by rw [hl]; simp [List.append_assoc])
  · intro s url title nowIso
    unfold add_playlist
    cases he : extract_playlist_id url with
    | none => rfl
    | some pid => rfl

/-- Witness for `playlist_extract_characterization`: on
`"playlist=xyz"` the extraction succeeds (the scan finds the `list=`
inside `playlist=`), the extracted identifier is `"xyz"`, and
Add-Playlist succeeds. -/
theorem playlist_extract_characterization_witness :
    (extract_playlist_id "playlist=xyz").isSome = true ∧
    extract_playlist_id "playlist=xyz" = some "xyz" ∧
    (add_playlist emptySubject "playlist=xyz" "" "2024-01-01T00:00:00").2 = true := by
  have h1 := playlist_extract_characterization.1 "playlist=xyz"
    ['p', 'l', 'a', 'y'] ['y', 'z'] 'x' (by decide) (by decide)
  have h4 := playlist_extract_characterization.2.2.2 emptySubject "playlist=xyz" ""
    "2024-01-01T00:00:00"
  exact ⟨h1, by decide, h4.trans h1⟩
